import Mathlib

/-!
Verification development for the Port-ZiLLA scan engine.

The Rust sources under src/scanner and src/network are shallowly embedded
here: pure computations become Lean functions, IO results (socket connects,
banner reads, service probes) become explicit oracle parameters, machine
integers become Nat with explicit reductions modulo 2^16 where a u16 cast
occurs, and the tokio semaphore that bounds probe concurrency becomes a
step relation on an explicit governor state.
-/

namespace PortZilla

/-- Port status, from src/scanner/models.rs (enum PortStatus). -/
inductive PortStatus where
  | Open
  | Closed
  | Filtered
  | OpenFiltered
  | Unknown
  deriving DecidableEq, Repr

/-- Transport protocol, from src/scanner/models.rs (enum Protocol). -/
inductive Protocol where
  | Tcp
  | Udp
  | Sctp
  deriving DecidableEq, Repr

/-- Service identification record, from src/scanner/models.rs (struct ServiceInfo).
The u8 confidence field is carried as a Nat. -/
structure ServiceInfo where
  name : String
  version : Option String
  product : Option String
  extra_info : Option String
  confidence : Nat
  deriving DecidableEq, Repr

/-- Per-port outcome record, from src/scanner/models.rs (struct PortInfo).
The response time Duration is carried as a Nat (milliseconds). -/
structure PortInfo where
  port : Nat
  status : PortStatus
  service : Option ServiceInfo
  banner : Option String
  response_time : Option Nat
  protocol : Protocol
  deriving DecidableEq, Repr

/-- Outcome of tokio timeout(self.timeout, TcpStream::connect(addr)) in
src/scanner/port_scanner.rs: the handshake succeeded, the connect call
returned an IO error (refusal, unreachable, or any other error), or the
timeout elapsed first.  The IO is abstracted as this oracle value. -/
inductive ConnOutcome where
  | success
  | ioError
  | timedOut
  deriving DecidableEq, Repr

/-- PortScanner::connect_with_timeout (src/scanner/port_scanner.rs lines 29-44):
Ok(Ok(_stream)) yields true, Ok(Err(e)) yields false, Err(_) (timeout)
also yields false. -/
def connect_with_timeout : ConnOutcome → Bool
  | ConnOutcome.success => true
  | ConnOutcome.ioError => false
  | ConnOutcome.timedOut => false

/-- detect_service_by_port (src/scanner/port_scanner.rs lines 105-138):
static port table; every result, including the unknown-port default,
carries confidence 80. -/
def detect_service_by_port (port : Nat) : ServiceInfo :=
  let np : String × Option String :=
    if port = 21 then ("ftp", some "FTP")
    else if port = 22 then ("ssh", some "SSH")
    else if port = 23 then ("telnet", some "Telnet")
    else if port = 25 then ("smtp", some "SMTP")
    else if port = 53 then ("domain", some "DNS")
    else if port = 80 then ("http", some "HTTP")
    else if port = 110 then ("pop3", some "POP3")
    else if port = 143 then ("imap", some "IMAP")
    else if port = 443 then ("https", some "HTTPS")
    else if port = 445 then ("microsoft-ds", some "SMB")
    else if port = 993 then ("imaps", some "IMAPS")
    else if port = 995 then ("pop3s", some "POP3S")
    else if port = 1433 then ("ms-sql-s", some "MSSQL")
    else if port = 3306 then ("mysql", some "MySQL")
    else if port = 3389 then ("ms-wbt-server", some "RDP")
    else if port = 5432 then ("postgresql", some "PostgreSQL")
    else if port = 5900 then ("vnc", some "VNC")
    else if port = 6379 then ("redis", some "Redis")
    else if port = 8080 then ("http-proxy", some "HTTP Proxy")
    else if port = 8443 then ("https-alt", some "HTTPS")
    else if port = 27017 then ("mongodb", some "MongoDB")
    else ("unknown", none)
  { name := np.1
    version := none
    product := np.2
    extra_info := none
    confidence := 80 }

/-- PortScanner::scan_port (src/scanner/port_scanner.rs lines 49-73).
conn is the connect oracle per port; rt is the measured elapsed time per
port (start_time.elapsed() is always taken, whatever the outcome). -/
def scan_port (conn : Nat → ConnOutcome) (rt : Nat → Nat) (port : Nat) : PortInfo :=
  let is_open := connect_with_timeout (conn port)
  { port := port
    status := if is_open then PortStatus.Open else PortStatus.Closed
    service := if is_open then some (detect_service_by_port port) else none
    banner := none
    response_time := some (rt port)
    protocol := Protocol.Tcp }

/-- SynScanner::scan_port (src/scanner/syn_scanner.rs lines 46-60): always
falls back to a freshly constructed PortScanner with the same timeout and
concurrency bound, then reassigns protocol := Tcp on the result. -/
def syn_scan_port (conn : Nat → ConnOutcome) (rt : Nat → Nat) (port : Nat) : PortInfo :=
  let result := scan_port conn rt port
  { result with protocol := Protocol.Tcp }

/-- UdpScanner::send_udp_probe (src/scanner/udp_scanner.rs lines 51-55):
stubbed, unconditionally returns Ok(false) ignoring the network. -/
def send_udp_probe : Bool := false

/-- UdpScanner::probe_udp_port (src/scanner/udp_scanner.rs lines 22-40):
the inner future completes immediately with Ok(false), so every branch of
the timeout match yields false. -/
def probe_udp_port (_port : Nat) : Bool := send_udp_probe

/-- UdpScanner::scan_port (src/scanner/udp_scanner.rs lines 60-77). -/
def udp_scan_port (port : Nat) : PortInfo :=
  let is_open := probe_udp_port port
  { port := port
    status := if is_open then PortStatus.Open else PortStatus.Closed
    service := none
    banner := none
    response_time := none
    protocol := Protocol.Udp }

/-- Scan mode, from src/scanner/models.rs (enum ScanType). -/
inductive ScanType where
  | Quick
  | Standard
  | Full
  | CustomRange (start_ : Nat) (end_ : Nat)
  | Targeted (ports : List Nat)
  deriving DecidableEq, Repr

/-- CommonPorts::top_100 (src/scanner/models.rs lines 225-231): despite the
name, the source list holds only these 21 ports. -/
def top_100 : List Nat :=
  [21, 22, 23, 25, 53, 80, 110, 111, 135, 139, 143, 443, 445, 993, 995,
   1723, 3306, 3389, 5900, 8080, 8443]

/-- CommonPorts::top_1000 (src/scanner/models.rs lines 233-238): the source
merely returns the top_100 list. -/
def top_1000 : List Nat := top_100

/-- CommonPorts::all_ports (src/scanner/models.rs lines 240-242): 1..=65535. -/
def all_ports : List Nat := List.range' 1 65535

/-- ScanEngine::get_ports_to_scan (src/scanner/engine.rs lines 128-136).
CustomRange start end collects the Rust inclusive range start..=end, which
is empty when start exceeds end. -/
def get_ports_to_scan : ScanType → List Nat
  | ScanType.Quick => top_100
  | ScanType.Standard => top_1000
  | ScanType.Full => all_ports
  | ScanType.CustomRange s e => List.range' s (e + 1 - s)
  | ScanType.Targeted ports => ports

/-- The boolean options of ScanConfig (src/scanner/models.rs lines 110-121)
consulted by the engine paths modelled here; the Duration and count fields
are absorbed into the connect and enrichment oracles. -/
structure ScanConfig where
  enable_service_detection : Bool
  enable_banner_grabbing : Bool
  enable_os_detection : Bool
  enable_traceroute : Bool
  stealth_mode : Bool
  deriving DecidableEq, Repr

/-- ScanStatistics (src/scanner/models.rs lines 54-64); the f64 success_rate
is modelled as an exact rational, durations as Nat milliseconds. -/
structure ScanStatistics where
  total_ports : Nat
  open_ports : Nat
  closed_ports : Nat
  filtered_ports : Nat
  scan_duration : Nat
  packets_sent : Nat
  packets_received : Nat
  success_rate : ℚ

/-- The total computed by ScanResult::update_statistics (src/scanner/models.rs
lines 170-176).  The u16 casts of ports.len() and of the range arithmetic
are the reductions modulo 2^16; for CustomRange the source arithmetic is
end - start + 1 on u16 values, faithfully reproduced for start at most end
(the underflowing case panics in the source). -/
def total_of : ScanType → Nat
  | ScanType.Quick => 100
  | ScanType.Standard => 1000
  | ScanType.Full => 65535
  | ScanType.CustomRange s e => (e - s + 1) % 65536
  | ScanType.Targeted ports => ports.length % 65536

/-- ScanResult::update_statistics (src/scanner/models.rs lines 169-191),
as a function of the scan type, the length of the accumulated open_ports
list, and the scan duration.  closed = total - open is the source's u16
subtraction, meaningful when open does not exceed total (the source panics
otherwise); filtered is hard-coded to 0. -/
def update_statistics (scan_type : ScanType) (open_count : Nat) (dur : Nat) :
    ScanStatistics :=
  let total := total_of scan_type
  let opened := open_count % 65536
  { total_ports := total
    open_ports := opened
    closed_ports := total - opened
    filtered_ports := 0
    scan_duration := dur
    packets_sent := total
    packets_received := opened
    success_rate := if 0 < total then ((opened : ℚ) / (total : ℚ)) * 100 else 0 }

/-- Stable insertion of a PortInfo into a list sorted by the port key:
the inserted element goes after every element whose key is at most its own. -/
def insert_by_port (x : PortInfo) : List PortInfo → List PortInfo
  | [] => [x]
  | y :: ys =>
    if x.port ≤ y.port then x :: y :: ys else y :: insert_by_port x ys

/-- Vec::sort_by_key(|p| p.port) of src/scanner/models.rs line 161, modelled
as a stable insertion sort (Rust's sort_by_key is a stable sort; for lists
the two agree element for element). -/
def sort_by_port (l : List PortInfo) : List PortInfo :=
  l.foldr insert_by_port []

/-- ScanResult::add_open_port (src/scanner/models.rs lines 159-162): push
the record, then re-sort the whole list by the port key. -/
def add_open_port (acc : List PortInfo) (p : PortInfo) : List PortInfo :=
  sort_by_port (acc ++ [p])

/-- The per-port body of ScanEngine::enhance_scan_results
(src/scanner/engine.rs lines 246-261).  sd and bg are oracles for the IO
results of ServiceDetector::detect_service and BannerGrabber::grab_banner:
some models Ok and updates the field, none models Err and leaves it as is. -/
def enhance_one (cfg : ScanConfig) (sd : Nat → Option ServiceInfo)
    (bg : Nat → Option String) (p : PortInfo) : PortInfo :=
  let p1 :=
    if cfg.enable_service_detection then
      match sd p.port with
      | some s => { p with service := some s }
      | none => p
    else p
  if cfg.enable_banner_grabbing then
    match bg p1.port with
    | some b => { p1 with banner := some b }
    | none => p1
  else p1

/-- ScanEngine::enhance_scan_results (src/scanner/engine.rs lines 235-265):
early return when both toggles are off, else the per-port enhancement in
input order. -/
def enhance_scan_results (cfg : ScanConfig) (sd : Nat → Option ServiceInfo)
    (bg : Nat → Option String) (l : List PortInfo) : List PortInfo :=
  if cfg.enable_service_detection = false ∧ cfg.enable_banner_grabbing = false then l
  else l.map (enhance_one cfg sd bg)

/-- The scanner selected by ScanEngine::scan_ports (src/scanner/engine.rs
lines 139-143): the SYN scanner in stealth mode (whose construction always
succeeds, so the unwrap_or fallback is the SYN path), else the TCP scanner. -/
def select_scan_port (cfg : ScanConfig) (conn : Nat → ConnOutcome)
    (rt : Nat → Nat) : Nat → PortInfo :=
  if cfg.stealth_mode then syn_scan_port conn rt else scan_port conn rt

/-- ScanEngine::scan_ports (src/scanner/engine.rs lines 138-161): probe each
port in order and keep only the outcomes whose status is Open. -/
def scan_ports (cfg : ScanConfig) (conn : Nat → ConnOutcome) (rt : Nat → Nat)
    (ports : List Nat) : List PortInfo :=
  (ports.map (select_scan_port cfg conn rt)).filter
    (fun pi => pi.status = PortStatus.Open)

/-- The open_ports list assembled by ScanEngine::scan (src/scanner/engine.rs
lines 46-84) for a given materialized port list: probe, filter to Open,
enhance, then fold add_open_port into the fresh ScanResult. -/
def engine_scan_list (cfg : ScanConfig) (conn : Nat → ConnOutcome)
    (rt : Nat → Nat) (sd : Nat → Option ServiceInfo) (bg : Nat → Option String)
    (ports : List Nat) : List PortInfo :=
  (enhance_scan_results cfg sd bg (scan_ports cfg conn rt ports)).foldl
    add_open_port []

/-- ScanEngine::scan composed with the port-list materialization. -/
def engine_scan (cfg : ScanConfig) (conn : Nat → ConnOutcome) (rt : Nat → Nat)
    (sd : Nat → Option ServiceInfo) (bg : Nat → Option String)
    (scan_type : ScanType) : List PortInfo :=
  engine_scan_list cfg conn rt sd bg (get_ports_to_scan scan_type)

/-- Observable enrichment actions of ScanEngine::enhance_scan_results, in
program order: the ServiceDetector::detect_service call and the
BannerGrabber::grab_banner call on a port. -/
inductive Event where
  | serviceDetect (port : Nat)
  | bannerGrab (port : Nat)
  deriving DecidableEq, BEq, Repr

/-- The enrichment events one iteration of the loop in
ScanEngine::enhance_scan_results emits, in the order the source performs
them: the detect_service call first (engine.rs lines 248-252), the
grab_banner call second (engine.rs lines 255-259). -/
def enhance_one_events (cfg : ScanConfig) (p : PortInfo) : List Event :=
  (if cfg.enable_service_detection then [Event.serviceDetect p.port] else []) ++
  (if cfg.enable_banner_grabbing then [Event.bannerGrab p.port] else [])

/-- The full event trace of ScanEngine::enhance_scan_results over its input
list (empty when both toggles are off, by the early return). -/
def enhance_trace (cfg : ScanConfig) (l : List PortInfo) : List Event :=
  if cfg.enable_service_detection = false ∧ cfg.enable_banner_grabbing = false then []
  else l.flatMap (enhance_one_events cfg)

/-- a occurs before b in the trace: both events occur and the first
occurrence of a has the smaller index. -/
def event_precedes (tr : List Event) (a b : Event) : Bool :=
  match tr.indexOf? a, tr.indexOf? b with
  | some i, some j => decide (i < j)
  | _, _ => false

/-- One replacement scan step over a character list, with fuel bounded by
the list length: at a position where the pattern is a prefix, emit the
replacement and skip past the matched pattern (non-overlapping, left to
right), else keep the character.  This is the behaviour of Rust
str::replace. -/
def replace_go (pat rep : List Char) : Nat → List Char → List Char
  | _, [] => []
  | 0, s => s
  | Nat.succ fuel, c :: rest =>
    if pat.isPrefixOf (c :: rest) then
      rep ++ replace_go pat rep fuel (rest.drop (pat.length - 1))
    else
      c :: replace_go pat rep fuel rest

/-- Rust str::replace on character lists (the patterns used by the source
are all nonempty, so a fuel of the list length always suffices). -/
def replace_list (pat rep s : List Char) : List Char :=
  replace_go pat rep s.length s

/-- Rust str::trim on character lists: drop whitespace from both ends
(whitespace per Char.isWhitespace, which covers the ASCII whitespace the
source banners contain). -/
def trim_list (s : List Char) : List Char :=
  ((s.dropWhile Char.isWhitespace).reverse.dropWhile Char.isWhitespace).reverse

/-- BannerGrabber::clean_banner (src/network/banner_grabber.rs lines
201-210): trim, then replace CRLF, then bare LF, then bare CR, each with
a pipe separator, then keep at most 500 characters. -/
def clean_banner (banner : String) : String :=
  String.mk
    ((replace_list ['\r'] (" | ".data)
      (replace_list ['\n'] (" | ".data)
        (replace_list ['\r', '\n'] (" | ".data)
          (trim_list banner.data)))).take 500)

/-- BannerGrabber::send_probe_and_read (src/network/banner_grabber.rs lines
176-199), as a function of the read outcome: n is the byte count the timed
read returned (0 also covers read errors and the timeout), and decoded is
the String::from_utf8 result on those n bytes (some when they are valid
UTF-8). -/
def send_probe_and_read (n : Nat) (decoded : Option String) : String :=
  if 0 < n then
    match decoded with
    | some text => clean_banner text
    | none => "[Binary data: " ++ toString n ++ " bytes]"
  else
    "[No response]"

/-- Rust String::to_lowercase on character lists (the source compares ASCII
patterns, covered by Char.toLower). -/
def lower (s : List Char) : List Char := s.map Char.toLower

/-- Rust str::contains for a string pattern: some position of the haystack
starts with the pattern. -/
def list_contains (pat : List Char) : List Char → Bool
  | [] => pat.isEmpty
  | c :: rest => pat.isPrefixOf (c :: rest) || list_contains pat rest

/-- The service_patterns table built in ServiceDetector::new
(src/network/service_detector.rs lines 24-47), in insertion order.  The
source stores it in a HashMap whose iteration order is arbitrary; every
property proved below is insensitive to the order of entries. -/
def service_patterns : List (String × List String) :=
  [("ssh", ["SSH", "OpenSSH"]),
   ("http", ["HTTP", "Apache", "nginx", "IIS", "Server:"]),
   ("ftp", ["FTP", "220", "vsFTPd", "ProFTPD"]),
   ("smtp", ["SMTP", "ESMTP", "Postfix", "Sendmail", "Exim"]),
   ("dns", ["DNS", "BIND"]),
   ("mysql", ["MySQL", "mariadb"]),
   ("postgresql", ["PostgreSQL"]),
   ("redis", ["REDIS", "Redis"]),
   ("mongodb", ["MongoDB"]),
   ("rdp", ["Microsoft Terminal Services"]),
   ("vnc", ["RFB", "VNC"])]

/-- The pattern-scan loop of ServiceDetector::analyze_banner
(src/network/service_detector.rs lines 76-92): the first table entry one
of whose patterns occurs, case-insensitively, in the banner. -/
def banner_matches (banner : String) : Option String :=
  (service_patterns.find? (fun entry =>
    entry.2.any (fun pat => list_contains (lower pat.data) (lower banner.data)))).map
    Prod.fst

/-- Rust banner.chars().take(100).collect(), used for extra_info excerpts. -/
def take_100 (s : String) : String := String.mk (s.data.take 100)

/-- ServiceDetector::detect_by_port (src/network/service_detector.rs lines
102-135): static port table; every result, including the unknown-port
default, carries confidence 80. -/
def detect_by_port (port : Nat) : ServiceInfo :=
  let np : String × Option String :=
    if port = 21 then ("ftp", some "FTP")
    else if port = 22 then ("ssh", some "SSH")
    else if port = 23 then ("telnet", some "Telnet")
    else if port = 25 then ("smtp", some "SMTP")
    else if port = 53 then ("dns", some "DNS")
    else if port = 80 then ("http", some "HTTP")
    else if port = 110 then ("pop3", some "POP3")
    else if port = 143 then ("imap", some "IMAP")
    else if port = 443 then ("https", some "HTTPS")
    else if port = 445 then ("smb", some "SMB")
    else if port = 993 then ("imaps", some "IMAPS")
    else if port = 995 then ("pop3s", some "POP3S")
    else if port = 1433 then ("mssql", some "Microsoft SQL Server")
    else if port = 3306 then ("mysql", some "MySQL")
    else if port = 3389 then ("rdp", some "Remote Desktop")
    else if port = 5432 then ("postgresql", some "PostgreSQL")
    else if port = 5900 then ("vnc", some "VNC")
    else if port = 6379 then ("redis", some "Redis")
    else if port = 8080 then ("http", some "HTTP Proxy")
    else if port = 8443 then ("https", some "HTTPS Alternative")
    else if port = 27017 then ("mongodb", some "MongoDB")
    else ("unknown", none)
  { name := np.1
    version := none
    product := np.2
    extra_info := none
    confidence := 80 }

/-- ServiceDetector::analyze_banner (src/network/service_detector.rs lines
73-100).  ev abstracts extract_version_and_product (a regex routine whose
output does not influence any field but version and product); it returns
the (version, product) pair for a banner and service name. -/
def analyze_banner (ev : String → String → Option String × Option String)
    (banner : String) (port : Nat) : ServiceInfo :=
  match banner_matches banner with
  | some service_name =>
    let vp := ev banner service_name
    { name := service_name
      version := vp.1
      product := vp.2
      extra_info := some (take_100 banner)
      confidence := 90 }
  | none =>
    let port_based := detect_by_port port
    { port_based with
      confidence := 60
      extra_info := some ("Banner: " ++ take_100 banner) }

/-- ServiceDetector::detect_service (src/network/service_detector.rs lines
55-71).  banner_res is the oracle for the timed grab_banner call: some for
Ok within the timeout, none for an error or timeout.  The source keeps the
banner only when it is nonempty and differs from the no-response marker. -/
def detect_service (ev : String → String → Option String × Option String)
    (banner_res : Option String) (port : Nat) : ServiceInfo :=
  let banner : Option String :=
    match banner_res with
    | some b => if b ≠ "" ∧ b ≠ "[No response]" then some b else none
    | none => none
  match banner with
  | some b => analyze_banner ev b port
  | none => detect_by_port port

/-- State of the probe governor of ScanEngine::scan_ports_with_progress
(src/scanner/engine.rs lines 163-233): the tokio Semaphore's available
permits, the number of probes currently holding a permit (in flight),
the ports not yet dispatched, and the count of completed probes. -/
structure GovState where
  available : Nat
  inflight : Nat
  pending : List Nat
  completed : Nat
  deriving DecidableEq, Repr

/-- Transitions of the governor: a probe starts by acquiring a permit
(possible only while a permit is available, the semantics of
Semaphore::acquire), and a running probe finishes and releases its permit
(the permit drops when the task's _permit guard is dropped). -/
inductive GovStep : GovState → GovState → Prop
  | start (s : GovState) (p : Nat) (rest : List Nat) :
      s.pending = p :: rest → 0 < s.available →
      GovStep s { available := s.available - 1
                  inflight := s.inflight + 1
                  pending := rest
                  completed := s.completed }
  | finish (s : GovState) :
      0 < s.inflight →
      GovStep s { available := s.available + 1
                  inflight := s.inflight - 1
                  pending := s.pending
                  completed := s.completed + 1 }

/-- The governor's initial state for a scan with concurrency bound n over
a port list: Semaphore::new(max_concurrent_tasks) and nothing dispatched. -/
def gov_init (n : Nat) (ports : List Nat) : GovState :=
  { available := n, inflight := 0, pending := ports, completed := 0 }

/-- States the governor can reach from the initial state. -/
inductive GovReach (n : Nat) (ports : List Nat) : GovState → Prop
  | init : GovReach n ports (gov_init n ports)
  | step {s t : GovState} : GovReach n ports s → GovStep s t → GovReach n ports t

/-- Index of a transport in the declaration order of the Protocol enum. -/
def proto_idx : Protocol → Nat
  | Protocol.Tcp => 0
  | Protocol.Udp => 1
  | Protocol.Sctp => 2

/-- Ordering of outcomes by the (transport, port) pair, lexicographically. -/
def pair_le (a b : PortInfo) : Prop :=
  proto_idx a.protocol < proto_idx b.protocol ∨
    (a.protocol = b.protocol ∧ a.port ≤ b.port)

/-- Ordering of outcomes by the port key alone (the key the source sorts by). -/
def port_le (a b : PortInfo) : Prop := a.port ≤ b.port

/-- The ports enumerated by the fallback table of
ServiceDetector::detect_by_port. -/
def known_service_ports : List Nat :=
  [21, 22, 23, 25, 53, 80, 110, 143, 443, 445, 993, 995, 1433, 3306, 3389,
   5432, 5900, 6379, 8080, 8443, 27017]

lemma insert_by_port_perm (x : PortInfo) (l : List PortInfo) :
    (insert_by_port x l).Perm (x :: l) := by
  induction l with
  | nil => exact List.Perm.refl _
  | cons y ys ih =>
    by_cases h : x.port ≤ y.port
    · simp [insert_by_port, h]
    · simp only [insert_by_port, if_neg h]
      exact (ih.cons y).trans (List.Perm.swap x y ys)

lemma sort_by_port_perm (l : List PortInfo) : (sort_by_port l).Perm l := by
  induction l with
  | nil => exact List.Perm.refl _
  | cons x xs ih =>
    have : sort_by_port (x :: xs) = insert_by_port x (sort_by_port xs) := rfl
    rw [this]
    exact (insert_by_port_perm x (sort_by_port xs)).trans (ih.cons x)

lemma mem_insert_by_port {z x : PortInfo} {l : List PortInfo} :
    z ∈ insert_by_port x l ↔ z = x ∨ z ∈ l := by
  rw [(insert_by_port_perm x l).mem_iff, List.mem_cons]

lemma insert_by_port_pairwise {x : PortInfo} {l : List PortInfo}
    (h : l.Pairwise port_le) : (insert_by_port x l).Pairwise port_le := by
  induction l with
  | nil => simp [insert_by_port, port_le]
  | cons y ys ih =>
    rcases List.pairwise_cons.mp h with ⟨hy, hys⟩
    by_cases hxy : x.port ≤ y.port
    · simp only [insert_by_port, if_pos hxy]
      refine List.pairwise_cons.mpr ⟨?_, h⟩
      intro z hz
      rcases List.mem_cons.mp hz with rfl | hz
      · exact hxy
      · exact le_trans hxy (hy z hz)
    · simp only [insert_by_port, if_neg hxy]
      refine List.pairwise_cons.mpr ⟨?_, ih hys⟩
      intro z hz
      rcases mem_insert_by_port.mp hz with rfl | hz
      · exact Nat.le_of_not_le hxy
      · exact hy z hz

lemma sort_by_port_pairwise (l : List PortInfo) :
    (sort_by_port l).Pairwise port_le := by
  induction l with
  | nil => simp [sort_by_port]
  | cons x xs ih => exact insert_by_port_pairwise ih

lemma add_open_port_perm (acc : List PortInfo) (p : PortInfo) :
    (add_open_port acc p).Perm (acc ++ [p]) :=
  sort_by_port_perm (acc ++ [p])

lemma add_open_port_pairwise (acc : List PortInfo) (p : PortInfo) :
    (add_open_port acc p).Pairwise port_le :=
  sort_by_port_pairwise (acc ++ [p])

lemma foldl_add_open_port_perm (l : List PortInfo) :
    ∀ acc : List PortInfo, (l.foldl add_open_port acc).Perm (acc ++ l) := by
  induction l with
  | nil => intro acc; simp
  | cons x xs ih =>
    intro acc
    have h1 : (xs.foldl add_open_port (add_open_port acc x)).Perm
        (add_open_port acc x ++ xs) := ih (add_open_port acc x)
    have h2 : (add_open_port acc x ++ xs).Perm ((acc ++ [x]) ++ xs) :=
      (add_open_port_perm acc x).append_right xs
    have h3 : (acc ++ [x]) ++ xs = acc ++ x :: xs := by simp
    simpa [List.foldl_cons, h3] using h1.trans h2

lemma foldl_add_open_port_pairwise (l : List PortInfo) :
    ∀ acc : List PortInfo, acc.Pairwise port_le →
      (l.foldl add_open_port acc).Pairwise port_le := by
  induction l with
  | nil => intro acc h; simpa using h
  | cons x xs ih =>
    intro acc _
    exact ih (add_open_port acc x) (add_open_port_pairwise acc x)

lemma syn_scan_port_eq (conn : Nat → ConnOutcome) (rt : Nat → Nat) (port : Nat) :
    syn_scan_port conn rt port = scan_port conn rt port := rfl

lemma select_scan_port_eq (cfg : ScanConfig) (conn : Nat → ConnOutcome)
    (rt : Nat → Nat) (port : Nat) :
    select_scan_port cfg conn rt port = scan_port conn rt port := by
  by_cases h : cfg.stealth_mode <;>
    simp [select_scan_port, h, syn_scan_port_eq]

lemma mem_scan_ports {cfg : ScanConfig} {conn : Nat → ConnOutcome}
    {rt : Nat → Nat} {ports : List Nat} {p : PortInfo}
    (hp : p ∈ scan_ports cfg conn rt ports) :
    p.status = PortStatus.Open ∧ p.protocol = Protocol.Tcp ∧ p.port ∈ ports := by
  unfold scan_ports at hp
  rcases List.mem_filter.mp hp with ⟨hm, hst⟩
  rcases List.mem_map.mp hm with ⟨q, hq, rfl⟩
  rw [select_scan_port_eq]
  rw [select_scan_port_eq] at hst
  refine ⟨of_decide_eq_true hst, rfl, ?_⟩
  simpa [scan_port] using hq

lemma enhance_one_fields (cfg : ScanConfig) (sd : Nat → Option ServiceInfo)
    (bg : Nat → Option String) (p : PortInfo) :
    (enhance_one cfg sd bg p).status = p.status ∧
    (enhance_one cfg sd bg p).port = p.port ∧
    (enhance_one cfg sd bg p).protocol = p.protocol := by
  unfold enhance_one
  by_cases h1 : cfg.enable_service_detection <;>
  by_cases h2 : cfg.enable_banner_grabbing <;>
    simp only [h1, h2, if_true, if_false, Bool.false_eq_true] <;>
    cases hs : sd p.port <;> cases hb : bg p.port <;>
      simp [hs, hb]

lemma mem_enhance_scan_results {cfg : ScanConfig} {sd : Nat → Option ServiceInfo}
    {bg : Nat → Option String} {l : List PortInfo} {p : PortInfo}
    (hp : p ∈ enhance_scan_results cfg sd bg l) :
    ∃ q ∈ l, p.status = q.status ∧ p.port = q.port ∧ p.protocol = q.protocol := by
  unfold enhance_scan_results at hp
  split at hp
  · exact ⟨p, hp, rfl, rfl, rfl⟩
  · rcases List.mem_map.mp hp with ⟨q, hq, rfl⟩
    exact ⟨q, hq, (enhance_one_fields cfg sd bg q).1,
      (enhance_one_fields cfg sd bg q).2.1, (enhance_one_fields cfg sd bg q).2.2⟩

lemma map_key_enhance_scan_results (cfg : ScanConfig)
    (sd : Nat → Option ServiceInfo) (bg : Nat → Option String)
    (l : List PortInfo) :
    (enhance_scan_results cfg sd bg l).map (fun p => (p.protocol, p.port)) =
      l.map (fun p => (p.protocol, p.port)) := by
  unfold enhance_scan_results
  split
  · rfl
  · rw [List.map_map]
    apply List.map_congr_left
    intro q _
    have h := enhance_one_fields cfg sd bg q
    simp only [Function.comp_apply]
    rw [h.2.1, h.2.2]

lemma map_key_scan_ports (cfg : ScanConfig) (conn : Nat → ConnOutcome)
    (rt : Nat → Nat) (ports : List Nat) :
    ((scan_ports cfg conn rt ports).map (fun p => (p.protocol, p.port))).Sublist
      (ports.map (fun q => (Protocol.Tcp, q))) := by
  unfold scan_ports
  have h1 := (List.filter_sublist (l := ports.map (select_scan_port cfg conn rt))
    (p := fun pi => decide (pi.status = PortStatus.Open)))
  have h2 := h1.map (fun p => (p.protocol, p.port))
  rwa [List.map_map,
    show ((fun p : PortInfo => (p.protocol, p.port)) ∘ select_scan_port cfg conn rt)
        = (fun q : Nat => (Protocol.Tcp, q)) from
      funext fun q => by rw [Function.comp_apply, select_scan_port_eq]; rfl] at h2

lemma gov_reach_invariant {n : Nat} {ports : List Nat} {s : GovState}
    (h : GovReach n ports s) : s.available + s.inflight = n := by
  induction h with
  | init => simp [gov_init]
  | step _ hstep ih =>
    cases hstep with
    | start p rest hp ha => simp only at ih ⊢; omega
    | finish hi => simp only at ih ⊢; omega

/-- Claim C1, counterexample: a TCP-connect probe whose connect attempt
times out is classified Closed, not Filtered, and still carries a
response_time — refuting that a timed-out probe is never classified Closed
and that timeouts yield Filtered with no response_time. -/
theorem tcp_timeout_classified_closed_cex :
    (scan_port (fun _ => ConnOutcome.timedOut) (fun _ => 5) 80).status =
      PortStatus.Closed ∧
    PortStatus.Closed ≠ PortStatus.Filtered ∧
    (scan_port (fun _ => ConnOutcome.timedOut) (fun _ => 5) 80).response_time =
      some 5 := by
  exact ⟨rfl, by decide, rfl⟩

/-- Claim C1, amended: for every TCP-connect probe, the returned status is
Open exactly when the handshake succeeds and Closed on every other outcome
(connection refused, other IO errors, and timeouts alike); the statuses
Filtered and Unknown are never produced, and response_time is always
present (the elapsed time measured from call start). -/
theorem tcp_connect_status_contract (conn : Nat → ConnOutcome) (rt : Nat → Nat)
    (port : Nat) :
    (scan_port conn rt port).status =
      (if conn port = ConnOutcome.success then PortStatus.Open
       else PortStatus.Closed) ∧
    (scan_port conn rt port).response_time = some (rt port) ∧
    (scan_port conn rt port).status ≠ PortStatus.Filtered ∧
    (scan_port conn rt port).status ≠ PortStatus.Unknown := by
  cases h : conn port <;> simp [scan_port, connect_with_timeout, h]

/-- Claim C1, witness for the amended theorem: a refused connection on port
22 is Closed with its elapsed time recorded. -/
theorem tcp_connect_status_contract_witness :
    (scan_port (fun _ => ConnOutcome.ioError) (fun _ => 4) 22).status =
      PortStatus.Closed ∧
    (scan_port (fun _ => ConnOutcome.ioError) (fun _ => 4) 22).response_time =
      some 4 := by
  have h := tcp_connect_status_contract (fun _ => ConnOutcome.ioError)
    (fun _ => 4) 22
  exact ⟨h.1.trans (by decide), h.2.1⟩

/-- Claim C2, counterexample: scanning the targeted port list with port 80
listed twice while the target accepts connections produces an outcomes
list whose (transport, port) pairs are (Tcp, 80) twice — a duplicate pair,
refuting the no-duplicates part of the claim. -/
theorem engine_scan_duplicate_pairs_cex :
    ((engine_scan_list ⟨false, false, false, false, false⟩
        (fun _ => ConnOutcome.success) (fun _ => 3) (fun _ => none)
        (fun _ => none) [80, 80]).map (fun p => (p.protocol, p.port))) =
      [(Protocol.Tcp, 80), (Protocol.Tcp, 80)] ∧
    ¬ ((engine_scan_list ⟨false, false, false, false, false⟩
        (fun _ => ConnOutcome.success) (fun _ => 3) (fun _ => none)
        (fun _ => none) [80, 80]).map (fun p => (p.protocol, p.port))).Nodup := by
  exact ⟨by decide, by decide⟩

/-- Claim C2, amended: the engine's outcome list is ALWAYS sorted ascending
by (transport, port), whatever the materialized port list (including one
with repeated ports); and whenever that port list contains no duplicate
ports, the outcome list also contains no duplicate (transport, port)
pairs.  With a repeated input port, duplicate pairs survive (see the
counterexample). -/
theorem engine_scan_sorted_nodup (cfg : ScanConfig) (conn : Nat → ConnOutcome)
    (rt : Nat → Nat) (sd : Nat → Option ServiceInfo) (bg : Nat → Option String)
    (ports : List Nat) :
    (engine_scan_list cfg conn rt sd bg ports).Pairwise pair_le ∧
    (ports.Nodup →
      ((engine_scan_list cfg conn rt sd bg ports).map
        (fun p => (p.protocol, p.port))).Nodup) := by
  have hperm := foldl_add_open_port_perm
    (enhance_scan_results cfg sd bg (scan_ports cfg conn rt ports)) []
  constructor
  · have hsorted : (engine_scan_list cfg conn rt sd bg ports).Pairwise port_le :=
      foldl_add_open_port_pairwise _ [] (by simp)
    have hproto : ∀ p ∈ engine_scan_list cfg conn rt sd bg ports,
        p.protocol = Protocol.Tcp := by
      intro p hp
      have hp2 : p ∈ enhance_scan_results cfg sd bg (scan_ports cfg conn rt ports) := by
        simpa using hperm.mem_iff.mp hp
      rcases mem_enhance_scan_results hp2 with ⟨q, hq, _, _, hpr⟩
      rw [hpr]
      exact (mem_scan_ports hq).2.1
    exact hsorted.imp_of_mem
      (fun {a b} ha hb hab =>
        Or.inr ⟨by rw [hproto a ha, hproto b hb], hab⟩)
  · intro h
    have hkey := map_key_enhance_scan_results cfg sd bg (scan_ports cfg conn rt ports)
    have hsub := map_key_scan_ports cfg conn rt ports
    have hinj : Function.Injective (fun q : Nat => (Protocol.Tcp, q)) := by
      intro a b hab
      exact (Prod.mk.injEq _ _ _ _).mp hab |>.2
    have hnd1 : ((scan_ports cfg conn rt ports).map
        (fun p => (p.protocol, p.port))).Nodup :=
      hsub.nodup (h.map hinj)
    have hnd2 : ((enhance_scan_results cfg sd bg
        (scan_ports cfg conn rt ports)).map (fun p => (p.protocol, p.port))).Nodup := by
      rw [hkey]; exact hnd1
    have hpm := hperm.map (fun p : PortInfo => (p.protocol, p.port))
    simp only [List.nil_append] at hpm
    exact hpm.symm.nodup hnd2

/-- Claim C2, witness for the amended theorem: the sorted conjunct at the
duplicated port list of the counterexample, and the no-duplicates
conjunct at a concrete duplicate-free port list. -/
theorem engine_scan_sorted_nodup_witness :
    (engine_scan_list ⟨false, false, false, false, false⟩
        (fun _ => ConnOutcome.success) (fun _ => 3) (fun _ => none)
        (fun _ => none) [80, 80]).Pairwise pair_le ∧
    ([80, 443] : List Nat).Nodup ∧
    ((engine_scan_list ⟨false, false, false, false, false⟩
        (fun _ => ConnOutcome.success) (fun _ => 3) (fun _ => none)
        (fun _ => none) [80, 443]).map (fun p => (p.protocol, p.port))).Nodup :=
  ⟨(engine_scan_sorted_nodup ⟨false, false, false, false, false⟩
     (fun _ => ConnOutcome.success) (fun _ => 3) (fun _ => none)
     (fun _ => none) [80, 80]).1,
   by decide,
   (engine_scan_sorted_nodup ⟨false, false, false, false, false⟩
     (fun _ => ConnOutcome.success) (fun _ => 3) (fun _ => none)
     (fun _ => none) [80, 443]).2 (by decide)⟩

/-- Claim C6: the stealth probe (whose raw-socket path is never taken; the
source always degrades) produces exactly the TCP-connect probe's
PortOutcome on the same (target, port), for every connect-oracle and
timing behaviour. -/
theorem stealth_degrades_to_tcp_connect (conn : Nat → ConnOutcome)
    (rt : Nat → Nat) (port : Nat) :
    syn_scan_port conn rt port = scan_port conn rt port := rfl

/-- Claim C6, witness at a concrete oracle and port. -/
theorem stealth_degrades_to_tcp_connect_witness :
    syn_scan_port (fun _ => ConnOutcome.success) (fun _ => 9) 443 =
      scan_port (fun _ => ConnOutcome.success) (fun _ => 9) 443 :=
  stealth_degrades_to_tcp_connect (fun _ => ConnOutcome.success) (fun _ => 9) 443

/-- Claim C7: evaluation of the UDP probe at the failing input — a probe
that receives only silence (indeed, any probe: send_udp_probe is stubbed
to Ok(false)) is classified Closed, never OpenFiltered, contradicting the
claim that silence yields OpenFiltered and never Closed. -/
theorem udp_silence_classified_closed (port : Nat) :
    (udp_scan_port port).status = PortStatus.Closed ∧
    (udp_scan_port port).status ≠ PortStatus.OpenFiltered := by
  exact ⟨rfl, by simp [udp_scan_port, probe_udp_port, send_udp_probe]⟩

/-- Claim C7, witness: the silent SNMP port 161 is reported Closed. -/
theorem udp_silence_classified_closed_witness :
    (udp_scan_port 161).status = PortStatus.Closed :=
  (udp_silence_classified_closed 161).1

/-- Claim C10: every PortInfo in the engine's assembled open_ports list has
status Open; probes reporting any other status contribute no entry. -/
theorem engine_scan_all_open (cfg : ScanConfig) (conn : Nat → ConnOutcome)
    (rt : Nat → Nat) (sd : Nat → Option ServiceInfo) (bg : Nat → Option String)
    (ports : List Nat) (p : PortInfo)
    (hp : p ∈ engine_scan_list cfg conn rt sd bg ports) :
    p.status = PortStatus.Open := by
  have hperm := foldl_add_open_port_perm
    (enhance_scan_results cfg sd bg (scan_ports cfg conn rt ports)) []
  have hp2 : p ∈ enhance_scan_results cfg sd bg (scan_ports cfg conn rt ports) := by
    simpa using hperm.mem_iff.mp hp
  rcases mem_enhance_scan_results hp2 with ⟨q, hq, hst, _, _⟩
  rw [hst]
  exact (mem_scan_ports hq).1

/-- Claim C10, witness: the outcome the engine produces for an accepting
port 80 is in the result list and has status Open. -/
theorem engine_scan_all_open_witness :
    (scan_port (fun _ => ConnOutcome.success) (fun _ => 3) 80).status =
      PortStatus.Open :=
  engine_scan_all_open ⟨false, false, false, false, false⟩
    (fun _ => ConnOutcome.success) (fun _ => 3) (fun _ => none) (fun _ => none)
    [80] _ (by decide)

/-- Claim C3, counterexample: for port 12345, which is not in the fallback
table, service detection with no banner returns name "unknown" with no
product but confidence 80, not 0 — refuting the confidence-0 part (and
hence the claimed set {0, 60, 80, 90} is really {60, 80, 90}). -/
theorem detect_service_unknown_port_cex :
    (detect_service (fun _ _ => (none, none)) none 12345).name = "unknown" ∧
    (detect_service (fun _ _ => (none, none)) none 12345).product = none ∧
    (detect_service (fun _ _ => (none, none)) none 12345).confidence = 80 ∧
    (80 : Nat) ≠ 0 := by
  exact ⟨by decide, by decide, by decide, by decide⟩

/-- Claim C3, amended: confidence is 90 when a banner pattern matched, 80
when no banner was collected (whatever the port, known or not), and 60
when a banner was collected but matched no pattern; a port outside the
fallback table with no banner yields name "unknown" with no product and
confidence 80; every produced confidence lies in {60, 80, 90} (and the
port-only detector of the TCP scanner always reports 80). -/
theorem detect_service_confidence_contract
    (ev : String → String → Option String × Option String)
    (banner_res : Option String) (port : Nat) :
    ((detect_service ev banner_res port).confidence = 60 ∨
     (detect_service ev banner_res port).confidence = 80 ∨
     (detect_service ev banner_res port).confidence = 90) ∧
    detect_service ev none port = detect_by_port port ∧
    (detect_by_port port).confidence = 80 ∧
    (detect_service_by_port port).confidence = 80 ∧
    (port ∉ known_service_ports →
      detect_by_port port =
        { name := "unknown", version := none, product := none,
          extra_info := none, confidence := 80 }) ∧
    (∀ b, b ≠ "" → b ≠ "[No response]" → banner_matches b = none →
      (detect_service ev (some b) port).confidence = 60 ∧
      (detect_service ev (some b) port).name = (detect_by_port port).name) ∧
    (∀ b s, b ≠ "" → b ≠ "[No response]" → banner_matches b = some s →
      (detect_service ev (some b) port).confidence = 90 ∧
      (detect_service ev (some b) port).name = s) := by
  refine ⟨?_, rfl, rfl, rfl, ?_, ?_, ?_⟩
  · cases banner_res with
    | none => exact Or.inr (Or.inl rfl)
    | some b =>
      by_cases hg : b ≠ "" ∧ b ≠ "[No response]"
      · have hds : detect_service ev (some b) port = analyze_banner ev b port := by
          simp [detect_service, hg]
        rw [hds]
        unfold analyze_banner
        cases hm : banner_matches b
        · exact Or.inl rfl
        · exact Or.inr (Or.inr rfl)
      · have hds : detect_service ev (some b) port = detect_by_port port := by
          simp only [detect_service, if_neg hg]
        rw [hds]
        exact Or.inr (Or.inl rfl)
  · intro hk
    simp only [known_service_ports, List.mem_cons, List.not_mem_nil, or_false,
      not_or] at hk
    obtain ⟨h1, h2, h3, h4, h5, h6, h7, h8, h9, h10, h11, h12, h13, h14, h15,
      h16, h17, h18, h19, h20, h21⟩ := hk
    simp [detect_by_port, h1, h2, h3, h4, h5, h6, h7, h8, h9, h10, h11, h12,
      h13, h14, h15, h16, h17, h18, h19, h20, h21]
  · intro b hb1 hb2 hm
    have hds : detect_service ev (some b) port = analyze_banner ev b port := by
      simp [detect_service, hb1, hb2]
    rw [hds]
    unfold analyze_banner
    rw [hm]
    exact ⟨rfl, rfl⟩
  · intro b s hb1 hb2 hm
    have hds : detect_service ev (some b) port = analyze_banner ev b port := by
      simp [detect_service, hb1, hb2]
    rw [hds]
    unfold analyze_banner
    rw [hm]
    exact ⟨rfl, rfl⟩

/-- Claim C3, witness for the amended theorem: an SSH banner on port 22
matches with confidence 90, and an unknown port with no banner yields the
unknown record with confidence 80. -/
theorem detect_service_confidence_contract_witness :
    (detect_service (fun _ _ => (none, none)) (some "OpenSSH 8.9") 22).confidence = 90 ∧
    detect_by_port 9999 =
      { name := "unknown", version := none, product := none,
        extra_info := none, confidence := 80 } :=
  ⟨((detect_service_confidence_contract (fun _ _ => (none, none))
      (some "OpenSSH 8.9") 22).2.2.2.2.2.2 "OpenSSH 8.9" "ssh"
      (by decide) (by decide) (by decide)).1,
   (detect_service_confidence_contract (fun _ _ => (none, none)) none
      9999).2.2.2.2.1 (by decide)⟩

/-- Claim C4: at finalization, open + closed + filtered never exceeds total
(closed is total - open and filtered is 0), and the success rate is
100·open/total for positive totals and 0 otherwise.  The f64 rate is
modelled as an exact rational; the hypothesis excludes the u16-underflow
region in which the source itself panics. -/
theorem update_statistics_contract (st : ScanType) (open_count dur : Nat)
    (h : open_count % 65536 ≤ total_of st) :
    (update_statistics st open_count dur).open_ports +
      (update_statistics st open_count dur).closed_ports +
      (update_statistics st open_count dur).filtered_ports ≤
      (update_statistics st open_count dur).total_ports ∧
    (0 < (update_statistics st open_count dur).total_ports →
      (update_statistics st open_count dur).success_rate =
        100 * ((update_statistics st open_count dur).open_ports : ℚ) /
          ((update_statistics st open_count dur).total_ports : ℚ)) ∧
    ((update_statistics st open_count dur).total_ports = 0 →
      (update_statistics st open_count dur).success_rate = 0) := by
  unfold update_statistics
  simp only
  refine ⟨by omega, ?_, ?_⟩
  · intro ht
    rw [if_pos ht]
    ring
  · intro h0
    rw [if_neg (by omega)]

/-- Claim C4, witness at a Quick scan with 5 open ports. -/
theorem update_statistics_contract_witness :
    5 % 65536 ≤ total_of ScanType.Quick ∧
    (update_statistics ScanType.Quick 5 7).open_ports +
      (update_statistics ScanType.Quick 5 7).closed_ports +
      (update_statistics ScanType.Quick 5 7).filtered_ports ≤
      (update_statistics ScanType.Quick 5 7).total_ports :=
  ⟨by decide, (update_statistics_contract ScanType.Quick 5 7 (by decide)).1⟩

/-- Claim C5, counterexample: in the enrichment of a single Open outcome on
port 80 with both toggles enabled, the trace is the detect_service call
followed by the grab_banner call, so the banner read does NOT precede
service identification — the source performs them in the opposite order,
and detect_service fetches its own banner rather than consuming the
engine's. -/
theorem enhance_trace_order_cex :
    enhance_trace ⟨true, true, false, false, false⟩
      [{ port := 80, status := PortStatus.Open, service := none, banner := none,
         response_time := some 3, protocol := Protocol.Tcp }] =
      [Event.serviceDetect 80, Event.bannerGrab 80] ∧
    event_precedes [Event.serviceDetect 80, Event.bannerGrab 80]
      (Event.bannerGrab 80) (Event.serviceDetect 80) = false ∧
    event_precedes [Event.serviceDetect 80, Event.bannerGrab 80]
      (Event.serviceDetect 80) (Event.bannerGrab 80) = true := by
  exact ⟨by decide, by decide, by decide⟩

/-- Claim C5, amended: for every enriched outcome (both enrichment toggles
on), the engine performs the service-identification call strictly BEFORE
its banner read, emitting per port exactly the event pair
[serviceDetect, bannerGrab]; the service identifier does not consume the
engine's banner (it takes only the target and port, fetching a banner of
its own). -/
theorem enhance_trace_service_first (cfg : ScanConfig) (l : List PortInfo)
    (h1 : cfg.enable_service_detection = true)
    (h2 : cfg.enable_banner_grabbing = true) :
    enhance_trace cfg l =
      l.flatMap (fun p => [Event.serviceDetect p.port, Event.bannerGrab p.port]) := by
  have hev : enhance_one_events cfg =
      fun p => [Event.serviceDetect p.port, Event.bannerGrab p.port] :=
    funext fun p => by simp [enhance_one_events, h1, h2]
  simp [enhance_trace, h1, hev]

/-- Claim C5, witness for the amended theorem on one Open port-80 outcome. -/
theorem enhance_trace_service_first_witness :
    enhance_trace ⟨true, true, false, false, false⟩
      [{ port := 80, status := PortStatus.Open, service := none, banner := none,
         response_time := some 3, protocol := Protocol.Tcp }] =
      [Event.serviceDetect 80, Event.bannerGrab 80] :=
  (enhance_trace_service_first ⟨true, true, false, false, false⟩
      [{ port := 80, status := PortStatus.Open, service := none, banner := none,
         response_time := some 3, protocol := Protocol.Tcp }] rfl rfl).trans
    (by decide)

/-- Claim C8: the probe reader returns exactly the no-response marker when
zero bytes were read, the binary marker with the byte count when the bytes
are not valid UTF-8, and otherwise the decoded text trimmed, with CR/LF
occurrences collapsed to pipe separators, truncated to at most 500
characters. -/
theorem send_probe_and_read_contract (n : Nat) (decoded : Option String) :
    (n = 0 → send_probe_and_read n decoded = "[No response]") ∧
    (0 < n → decoded = none →
      send_probe_and_read n decoded = "[Binary data: " ++ toString n ++ " bytes]") ∧
    (∀ t, 0 < n → decoded = some t →
      send_probe_and_read n decoded = clean_banner t ∧
      clean_banner t =
        String.mk ((replace_list ['\r'] (" | ".data)
          (replace_list ['\n'] (" | ".data)
            (replace_list ['\r', '\n'] (" | ".data)
              (trim_list t.data)))).take 500) ∧
      (clean_banner t).length ≤ 500) := by
  refine ⟨?_, ?_, ?_⟩
  · intro h
    subst h
    rfl
  · intro h hd
    subst hd
    unfold send_probe_and_read
    rw [if_pos h]
  · intro t h hd
    subst hd
    refine ⟨?_, rfl, ?_⟩
    · unfold send_probe_and_read
      rw [if_pos h]
    · calc (clean_banner t).length
          = ((replace_list ['\r'] (" | ".data)
              (replace_list ['\n'] (" | ".data)
                (replace_list ['\r', '\n'] (" | ".data)
                  (trim_list t.data)))).take 500).length := rfl
        _ = min 500 (replace_list ['\r'] (" | ".data)
              (replace_list ['\n'] (" | ".data)
                (replace_list ['\r', '\n'] (" | ".data)
                  (trim_list t.data)))).length := by rw [List.length_take]
        _ ≤ 500 := Nat.min_le_left _ _

/-- Claim C8, witness at concrete read outcomes: zero bytes, five binary
bytes, and a CRLF-bearing text banner. -/
theorem send_probe_and_read_contract_witness :
    send_probe_and_read 0 none = "[No response]" ∧
    send_probe_and_read 5 none = "[Binary data: 5 bytes]" ∧
    send_probe_and_read 7 (some "  hi\r\nthere  ") = clean_banner "  hi\r\nthere  " ∧
    clean_banner "  hi\r\nthere  " = "hi | there" :=
  ⟨(send_probe_and_read_contract 0 none).1 rfl,
   (send_probe_and_read_contract 5 none).2.1 (by decide) rfl,
   ((send_probe_and_read_contract 7 (some "  hi\r\nthere  ")).2.2
      "  hi\r\nthere  " (by decide) rfl).1,
   by decide⟩

/-- Claim C9: in every state the governor can reach, the number of probes
in flight never exceeds the concurrency bound n — each probe holds one of
the n semaphore permits for its whole run. -/
theorem governor_inflight_bounded (n : Nat) (ports : List Nat) (s : GovState)
    (h : GovReach n ports s) : s.inflight ≤ n := by
  have := gov_reach_invariant h
  omega

/-- Claim C9, witness: after dispatching one probe of a two-port scan with
bound 2, the reached state has one probe in flight, within the bound. -/
theorem governor_inflight_bounded_witness :
    GovReach 2 [7, 9]
      { available := 1, inflight := 1, pending := [9], completed := 0 } ∧
    ({ available := 1, inflight := 1, pending := [9], completed := 0 } :
      GovState).inflight ≤ 2 := by
  have hreach : GovReach 2 [7, 9]
      { available := 1, inflight := 1, pending := [9], completed := 0 } :=
    GovReach.step GovReach.init
      (GovStep.start (gov_init 2 [7, 9]) 7 [9] rfl (by decide))
  exact ⟨hreach, governor_inflight_bounded 2 [7, 9] _ hreach⟩

end PortZilla
